import Mathlib

/-!
Shallow embedding of the process-supervision core of the
`yandex-music-desktop-library` repository (`src/index.ts` /
`src/controller.ts`, the revision with the connection state machine,
exponential backoff and the state cache), together with proofs of the
spec's claims about it.

Nondeterministic platform primitives are passed as explicit parameters:
the jitter draw `Math.random()` becomes a rational argument `rand`, the
outcome of `JSON.parse` on a stdout line becomes an
`Option InboundMsg` argument, and the outcome of each write attempt in
the command-retry loop becomes an `AttemptOutcome` argument.
-/

namespace YandexMusic

/-- Connection state of the controller (`types.ts`, `ConnectionState`). -/
inductive ConnectionState where
  | disconnected
  | connecting
  | connected
  | reconnecting
  | error
deriving DecidableEq, Repr

/-- Playback status (`types.ts`, `MediaData.playbackStatus`). -/
inductive PlaybackStatus where
  | playing
  | paused
  | stopped
  | unknown
deriving DecidableEq, Repr

/-- Track information (`types.ts`, `MediaData`). -/
structure MediaData where
  id : String
  appId : String
  appName : String
  title : String
  artist : String
  album : String
  playbackStatus : PlaybackStatus
  thumbnailBase64 : Option String
  isFocused : Bool
deriving DecidableEq, Repr

/-- Volume event data (`types.ts`, `VolumeData`). -/
structure VolumeData where
  volume : Int
  isMuted : Bool
deriving DecidableEq, Repr

/-- Controller options after the constructor's defaulting and clamping
(`controller.ts`, constructor).  Delays are rationals since the computed
restart delay carries a fractional jitter. -/
structure ControllerOptions where
  thumbnailSize : Int
  thumbnailQuality : Int
  autoRestart : Bool
  restartDelay : ℚ
  maxRestartDelay : ℚ
deriving DecidableEq, Repr

/-- The child process handle; `killed` mirrors Node's
`ChildProcess.killed` flag (true once `kill()` has been called). -/
structure Proc where
  killed : Bool
deriving DecidableEq, Repr

/-- Events published on the controller's emitter, plus the pseudo-event
of a state transition.  `stateEv` is the `state` event, `mediaEv` the
`media` event, `volumeEv` the `volume` event, `errorEv` the `error`
event and `exitEv` the `exit` event. -/
inductive Event where
  | stateEv (st : ConnectionState)
  | mediaEv (d : Option MediaData)
  | volumeEv (d : VolumeData)
  | errorEv (msg : String)
  | exitEv (code : Option Int)
deriving DecidableEq, Repr

/-- The controller's mutable fields (`controller.ts`, class
`YandexMusicController`).  `restartTimer` holds the delay of the pending
restart timer when one is outstanding; `resolved` is the `resolved`
flag of the promise returned by `start()`. -/
structure ControllerState where
  options : ControllerOptions
  process : Option Proc
  restartTimer : Option ℚ
  isStarted : Bool
  connectionState : ConnectionState
  restartAttempt : ℕ
  resolved : Bool
  lastMediaData : Option MediaData
  lastVolumeData : Option VolumeData
deriving DecidableEq, Repr

/-- Accessor `getLastMediaData()` (`controller.ts`). -/
def getLastMediaData (s : ControllerState) : Option MediaData :=
  s.lastMediaData

/-- Accessor `getLastVolumeData()` (`controller.ts`). -/
def getLastVolumeData (s : ControllerState) : Option VolumeData :=
  s.lastVolumeData

/-- Accessor `getState()` (`controller.ts`). -/
def getState (s : ControllerState) : ConnectionState :=
  s.connectionState

/-- `isRunning()` (`controller.ts`): `isStarted` and a live, unkilled
process handle. -/
def isRunning (s : ControllerState) : Bool :=
  s.isStarted && (match s.process with
    | some p => !p.killed
    | none => false)

/-- `setState` (`controller.ts`): update `connectionState` and emit a
`state` event, but only when the state actually changes. -/
def setState (s : ControllerState) (st : ConnectionState) :
    ControllerState × List Event :=
  if s.connectionState = st then (s, [])
  else ({ s with connectionState := st }, [Event.stateEv st])

/-- `getRestartDelay` (`controller.ts`): exponential backoff
`min(restartDelay * 2 ^ restartAttempt, maxRestartDelay)` plus a jitter
`Math.random() * 1000`.  The random draw is passed in as `rand`, with
the platform guaranteeing `0 ≤ rand < 1`. -/
def getRestartDelay (s : ControllerState) (rand : ℚ) : ℚ :=
  let baseDelay := s.options.restartDelay
  let maxDelay := s.options.maxRestartDelay
  let delay := min (baseDelay * 2 ^ s.restartAttempt) maxDelay
  let jitter := rand * 1000
  delay + jitter

/-- Rendering of a JS exit code (`number | null`) inside the restart
error message. -/
def codeStr : Option Int → String
  | none => "null"
  | some c => toString c

/-- Message of the error emitted when scheduling a restart
(`controller.ts`, exit handler).  The source message also interpolates
the rounded delay; the numeric formatting is not modelled. -/
def restartErrorMsg (code : Option Int) : String :=
  "Controller exited (code " ++ codeStr code ++ "). Restarting..."

/-- Result of one run of the process-exit handler: the new controller
state, the events emitted in order, and the delay of the restart timer
scheduled by this run (if any). -/
structure ExitResult where
  state : ControllerState
  events : List Event
  scheduled : Option ℚ
deriving DecidableEq, Repr

/-- The `process.on` exit handler installed by `start()`
(`controller.ts`): clear `isStarted`, emit `exit` only if currently
`connected`, fall to `disconnected`, and when auto-restart applies to a
non-zero exit code with no timer already pending, compute the backoff
delay (before incrementing the attempt counter), move to
`reconnecting`, emit an error and schedule exactly one restart timer;
otherwise reset the attempt counter.  In JS `code !== 0` is also true
for a `null` code. -/
def handleExit (s : ControllerState) (code : Option Int) (rand : ℚ) :
    ExitResult :=
  let s0 : ControllerState := { s with isStarted := false }
  let exitEvs : List Event :=
    if s0.connectionState = .connected then [Event.exitEv code] else []
  let p1 := setState s0 .disconnected
  let s1 := p1.1
  if s1.options.autoRestart = true ∧ code ≠ some 0 ∧ s1.restartTimer = none then
    let delay := getRestartDelay s1 rand
    let s2 : ControllerState := { s1 with restartAttempt := s1.restartAttempt + 1 }
    let p2 := setState s2 .reconnecting
    let s3 : ControllerState := { p2.1 with restartTimer := some delay }
    { state := s3
      events := exitEvs ++ p1.2 ++ p2.2 ++ [Event.errorEv (restartErrorMsg code)]
      scheduled := some delay }
  else
    { state := { s1 with restartAttempt := 0 }
      events := exitEvs ++ p1.2
      scheduled := none }

/-- A stdout line that `JSON.parse` accepted, classified by its `type`
field as the handler does (`controller.ts`, stdout line handler).
`other` stands for any recognized-JSON message whose `type` string is
neither `"media"` nor `"volume"` (for example `"ping"`); such messages
fall through both branches. -/
inductive InboundMsg where
  | media (data : Option MediaData)
  | volume (data : VolumeData)
  | other (msgType : String)
deriving DecidableEq, Repr

/-- Result of processing one (or several) stdout lines: the new state
and the events emitted in order. -/
structure LineResult where
  state : ControllerState
  events : List Event
deriving DecidableEq, Repr

/-- The `rl.on` line handler installed on the worker's stdout
(`controller.ts`): a line whose `JSON.parse` throws (`none`) is ignored
by the surrounding catch; a `media` message overwrites the media cache,
emits one `media` event and, if the state is still `connecting`, moves
to `connected`, resets the restart attempt counter and resolves the
pending `start()` promise; a `volume` message overwrites the volume
cache and emits one `volume` event; any other message type is ignored. -/
def handleLine (s : ControllerState) (p : Option InboundMsg) : LineResult :=
  match p with
  | none => ⟨s, []⟩
  | some (.media m) =>
    let s1 : ControllerState := { s with lastMediaData := m }
    if s1.connectionState = .connecting then
      let p2 := setState s1 .connected
      let s3 : ControllerState := { p2.1 with restartAttempt := 0, resolved := true }
      ⟨s3, Event.mediaEv m :: p2.2⟩
    else
      ⟨s1, [Event.mediaEv m]⟩
  | some (.volume v) =>
    ⟨{ s with lastVolumeData := some v }, [Event.volumeEv v]⟩
  | some (.other _) => ⟨s, []⟩

/-- The readline loop: lines are handled one after the other, each from
the state the previous one produced; a malformed line never aborts the
processing of the following lines. -/
def processLines (s : ControllerState) (ls : List (Option InboundMsg)) :
    LineResult :=
  match ls with
  | [] => ⟨s, []⟩
  | p :: rest =>
    let r1 := handleLine s p
    let r2 := processLines r1.state rest
    ⟨r2.state, r1.events ++ r2.events⟩

/-- `stop()` (`controller.ts`): a no-op when `isRunning()` is false;
otherwise reset the attempt counter, cancel any pending restart timer,
send a best-effort `close` command (errors ignored, no state effect
modelled), and end with `isStarted` cleared and state `disconnected`.
`graceful` selects between the worker exiting inside the grace window
and the forced `kill()` after it elapses; both converge on the same
observable fields except the process's `killed` flag.  The exit
listener installed by `start()` also fires when the process exits
during `stop()`; that is modelled separately by `handleExit`. -/
def stop (s : ControllerState) (graceful : Bool) :
    ControllerState × List Event :=
  if isRunning s = true then
    let s1 : ControllerState := { s with restartAttempt := 0, restartTimer := none }
    match s1.process with
    | none => setState { s1 with isStarted := false } .disconnected
    | some p =>
      if graceful then
        setState { s1 with isStarted := false } .disconnected
      else
        setState
          { s1 with isStarted := false, process := some { p with killed := true } }
          .disconnected
  else (s, [])

/-- Outcome of one `sendCommand` attempt inside the retry loop.  A
`failure` carries the thrown error's message and the value of
`isRunning()` observed by the catch block right after the failure; the
not-running guard inside `sendCommand` itself surfaces as a `failure`
with message `notRunningGuardMsg` and `runningAfter := false`. -/
inductive AttemptOutcome where
  | success
  | failure (msg : String) (runningAfter : Bool)
deriving DecidableEq, Repr

/-- Message of the guard at the top of `sendCommand` (`controller.ts`). -/
def notRunningGuardMsg : String :=
  "Controller is not running. Call start() first."

/-- Final outcome of `sendCommandWithRetry`: success, the immediate
abandon when the process is no longer running, or exhaustion of all
attempts with an aggregate error naming the last cause. -/
inductive RetryOutcome where
  | ok
  | notRunning (lastMsg : String)
  | exhausted (maxRetries : ℕ) (lastMsg : Option String)
deriving DecidableEq, Repr

/-- Result of `sendCommandWithRetry`: the outcome together with the
list of backoff delays (in milliseconds) awaited between attempts, in
order. -/
structure RetryResult where
  outcome : RetryOutcome
  waits : List ℕ
deriving DecidableEq, Repr

/-- The body of the `for` loop of `sendCommandWithRetry`
(`controller.ts`), with `fuel = maxRetries - attempt` remaining
iterations.  On failure: if `isRunning()` is now false the retry is
abandoned at once with no wait; otherwise, when this was not the last
attempt, the loop awaits `100 * 2 ^ attempt` and retries; after the
last attempt the loop falls through to the aggregate error. -/
def retryLoop (outcomes : ℕ → AttemptOutcome) (maxRetries : ℕ) :
    ℕ → ℕ → Option String → RetryResult
  | 0, _, lastMsg => ⟨.exhausted maxRetries lastMsg, []⟩
  | fuel + 1, attempt, _ =>
    match outcomes attempt with
    | .success => ⟨.ok, []⟩
    | .failure msg running =>
      if running then
        if fuel = 0 then ⟨.exhausted maxRetries (some msg), []⟩
        else
          let r := retryLoop outcomes maxRetries fuel (attempt + 1) (some msg)
          ⟨r.outcome, (100 * 2 ^ attempt) :: r.waits⟩
      else ⟨.notRunning msg, []⟩

/-- `sendCommandWithRetry` (`controller.ts`), `maxRetries` defaulting
to 3 at call sites. -/
def sendCommandWithRetry (outcomes : ℕ → AttemptOutcome) (maxRetries : ℕ) :
    RetryResult :=
  retryLoop outcomes maxRetries maxRetries 0 none

/-- The connection states carried by the `state` events of a trace, in
order: what a `state` subscriber observes. -/
def stateEvents (evs : List Event) : List ConnectionState :=
  evs.filterMap (fun e =>
    match e with
    | .stateEv st => some st
    | _ => none)

/-- The payloads carried by the `media` events of a trace, in order:
what a `media` subscriber observes. -/
def mediaPayloads (evs : List Event) : List (Option MediaData) :=
  evs.filterMap (fun e =>
    match e with
    | .mediaEv d => some d
    | _ => none)

/-- Attempt outcomes of a command issued while the process is not
running: `sendCommand`'s guard throws on the first attempt and
`isRunning()` is still false in the catch block. -/
def deadOutcomes : ℕ → AttemptOutcome :=
  fun _ => .failure notRunningGuardMsg false

/-! Concrete fixtures used by witnesses and counterexamples. -/

/-- A sample media record (the spec's scenario track). -/
def mediaA : MediaData :=
  { id := "s1", appId := "ym", appName := "Yandex Music", title := "Song A"
    artist := "Artist X", album := "Al", playbackStatus := .playing
    thumbnailBase64 := none, isFocused := true }

/-- A sample volume record. -/
def volA : VolumeData := { volume := 50, isMuted := false }

/-- The constructor's default options: auto-restart on, base delay
1000, maximum delay 30000. -/
def optsA : ControllerOptions :=
  { thumbnailSize := 150, thumbnailQuality := 85, autoRestart := true
    restartDelay := 1000, maxRestartDelay := 30000 }

/-- A connected controller as this revision actually reaches it: the
worker is live and unkilled, the first media message has been cached
and has resolved `start()`, no restart timer is pending, and
`isStarted` is false because no statement in this revision ever sets
it to true. -/
def sConnected : ControllerState :=
  { options := optsA, process := some ⟨false⟩, restartTimer := none
    isStarted := false, connectionState := .connected, restartAttempt := 0
    resolved := true, lastMediaData := some mediaA, lastVolumeData := none }

/-- A controller still in its initial `connecting` phase. -/
def sConnecting : ControllerState :=
  { options := optsA, process := some ⟨false⟩, restartTimer := none
    isStarted := false, connectionState := .connecting, restartAttempt := 0
    resolved := false, lastMediaData := none, lastVolumeData := none }

/-- A controller waiting out a pending restart timer after a crash. -/
def sPending : ControllerState :=
  { options := optsA, process := some ⟨false⟩, restartTimer := some 700
    isStarted := false, connectionState := .reconnecting, restartAttempt := 1
    resolved := true, lastMediaData := some mediaA, lastVolumeData := none }

/-- A hypothetical running controller (`isStarted := true`, as the
spec's supervisor intends after a successful `start()`), with both
caches populated: the state on which the body of `stop()` past its
early-return guard actually executes. -/
def sRunningCached : ControllerState :=
  { options := optsA, process := some ⟨false⟩, restartTimer := none
    isStarted := true, connectionState := .connected, restartAttempt := 0
    resolved := true, lastMediaData := some mediaA, lastVolumeData := some volA }

/-! Helper lemmas about `setState`. -/

@[simp] lemma setState_fst_options (s : ControllerState) (st : ConnectionState) :
    (setState s st).1.options = s.options := by
  unfold setState; split <;> rfl

@[simp] lemma setState_fst_process (s : ControllerState) (st : ConnectionState) :
    (setState s st).1.process = s.process := by
  unfold setState; split <;> rfl

@[simp] lemma setState_fst_restartTimer (s : ControllerState) (st : ConnectionState) :
    (setState s st).1.restartTimer = s.restartTimer := by
  unfold setState; split <;> rfl

@[simp] lemma setState_fst_isStarted (s : ControllerState) (st : ConnectionState) :
    (setState s st).1.isStarted = s.isStarted := by
  unfold setState; split <;> rfl

@[simp] lemma setState_fst_restartAttempt (s : ControllerState) (st : ConnectionState) :
    (setState s st).1.restartAttempt = s.restartAttempt := by
  unfold setState; split <;> rfl

@[simp] lemma setState_fst_resolved (s : ControllerState) (st : ConnectionState) :
    (setState s st).1.resolved = s.resolved := by
  unfold setState; split <;> rfl

@[simp] lemma setState_fst_lastMediaData (s : ControllerState) (st : ConnectionState) :
    (setState s st).1.lastMediaData = s.lastMediaData := by
  unfold setState; split <;> rfl

@[simp] lemma setState_fst_lastVolumeData (s : ControllerState) (st : ConnectionState) :
    (setState s st).1.lastVolumeData = s.lastVolumeData := by
  unfold setState; split <;> rfl

@[simp] lemma setState_fst_connectionState (s : ControllerState) (st : ConnectionState) :
    (setState s st).1.connectionState = st := by
  unfold setState; split
  · next h => exact h
  · rfl

lemma setState_snd (s : ControllerState) (st : ConnectionState) :
    (setState s st).2 = [] ∨ (setState s st).2 = [Event.stateEv st] := by
  unfold setState; split
  · exact Or.inl rfl
  · exact Or.inr rfl

@[simp] lemma exitEv_not_mem_setState_snd (s : ControllerState)
    (st : ConnectionState) (c : Option Int) :
    Event.exitEv c ∉ (setState s st).2 := by
  rcases setState_snd s st with h | h <;> simp [h]

@[simp] lemma handleExit_state_isStarted (s : ControllerState)
    (code : Option Int) (rand : ℚ) :
    (handleExit s code rand).state.isStarted = false := by
  simp only [handleExit]
  split <;> simp

lemma handleExit_restart_case (s : ControllerState) (code : Option Int)
    (rand : ℚ) (har : s.options.autoRestart = true) (hc : code ≠ some 0)
    (ht : s.restartTimer = none) :
    (handleExit s code rand).scheduled = some (getRestartDelay s rand) ∧
    (handleExit s code rand).state.restartTimer =
        some (getRestartDelay s rand) ∧
    (handleExit s code rand).state.restartAttempt = s.restartAttempt + 1 ∧
    (handleExit s code rand).state.connectionState = .reconnecting := by
  refine ⟨?_, ?_, ?_, ?_⟩ <;> simp [handleExit, getRestartDelay, har, hc, ht]

/-- C7: for every inbound line that decodes to a valid `media` message,
after processing the cached media snapshot equals the decoded payload
(including a `null` payload), and exactly one `media` event is
published, carrying that same payload. -/
theorem media_line_updates_cache (s : ControllerState) (m : Option MediaData) :
    (handleLine s (some (.media m))).state.lastMediaData = m ∧
    mediaPayloads (handleLine s (some (.media m))).events = [m] := by
  by_cases h : s.connectionState = .connecting <;>
    simp [handleLine, setState, mediaPayloads, h]

/-- C8: an inbound stdout line that fails to decode as a recognized
message — whether `JSON.parse` throws or the message `type` is neither
`media` nor `volume` — mutates no cache, publishes no event, and does
not disturb the processing of subsequent lines. -/
theorem malformed_line_no_effect (s : ControllerState) (t : String)
    (ls : List (Option InboundMsg)) :
    handleLine s none = ⟨s, []⟩ ∧
    handleLine s (some (.other t)) = ⟨s, []⟩ ∧
    processLines s (none :: ls) = processLines s ls ∧
    processLines s (some (.other t) :: ls) = processLines s ls := by
  refine ⟨rfl, rfl, ?_, ?_⟩ <;> simp [processLines, handleLine]

/-- C10: a valid `volume` message received while `connecting` updates
the volume cache and publishes one `volume` event, but leaves the state
`connecting` and the pending `start()` promise unresolved; only a
`media` message completes the connection and resolves `start()`. -/
theorem volume_while_connecting (s : ControllerState) (v : VolumeData)
    (m : Option MediaData) (h : s.connectionState = .connecting) :
    (handleLine s (some (.volume v))).state.lastVolumeData = some v ∧
    (handleLine s (some (.volume v))).events = [Event.volumeEv v] ∧
    (handleLine s (some (.volume v))).state.connectionState = .connecting ∧
    (handleLine s (some (.volume v))).state.resolved = s.resolved ∧
    (handleLine s (some (.media m))).state.connectionState = .connected ∧
    (handleLine s (some (.media m))).state.resolved = true := by
  simp [handleLine, setState, h]

theorem volume_while_connecting_witness :
    (handleLine sConnecting (some (.volume volA))).state.lastVolumeData = some volA ∧
    (handleLine sConnecting (some (.volume volA))).events = [Event.volumeEv volA] ∧
    (handleLine sConnecting (some (.volume volA))).state.connectionState = .connecting ∧
    (handleLine sConnecting (some (.volume volA))).state.resolved = sConnecting.resolved ∧
    (handleLine sConnecting (some (.media (some mediaA)))).state.connectionState = .connected ∧
    (handleLine sConnecting (some (.media (some mediaA)))).state.resolved = true :=
  volume_while_connecting sConnecting volA (some mediaA) rfl

/-- C9: the exit handler publishes an `exit` event exactly when the
process exit occurs while the connection state is `connected`; in
particular an exit while still `connecting` never surfaces as an exit
notification. -/
theorem exit_event_only_when_connected (s : ControllerState)
    (code : Option Int) (rand : ℚ) :
    (∃ c, Event.exitEv c ∈ (handleExit s code rand).events) ↔
      s.connectionState = .connected := by
  by_cases h : s.connectionState = .connected <;>
  · simp only [handleExit]
    split <;> simp [h]

/-- C2 (counterexample): on a non-zero exit while `connected` with
auto-restart enabled, the `state` events emitted are not just
`reconnecting` — the handler first falls to `disconnected`. -/
theorem crash_state_sequence_counterexample :
    stateEvents (handleExit sConnected (some 1) 0).events ≠
      [ConnectionState.reconnecting] := by
  have h : stateEvents (handleExit sConnected (some 1) 0).events =
      [ConnectionState.disconnected, ConnectionState.reconnecting] := by
    simp [handleExit, setState, stateEvents, sConnected, optsA]
  rw [h]
  decide

/-- C2 (amended): when the worker exits with a non-zero code while
`connected` and auto-restart is enabled (no timer pending), subscribers
observe the state-event sequence `disconnected` then `reconnecting` —
that is, `connected → disconnected → reconnecting`, with an
intermediate `disconnected` event — and the handler ends in
`reconnecting`. -/
theorem crash_state_sequence (s : ControllerState) (code : Option Int)
    (rand : ℚ) (h : s.connectionState = .connected)
    (har : s.options.autoRestart = true) (hc : code ≠ some 0)
    (ht : s.restartTimer = none) :
    stateEvents (handleExit s code rand).events =
        [ConnectionState.disconnected, ConnectionState.reconnecting] ∧
    (handleExit s code rand).state.connectionState = .reconnecting := by
  simp [handleExit, setState, stateEvents, h, har, hc, ht]

theorem crash_state_sequence_witness :
    stateEvents (handleExit sConnected (some 1) 0).events =
        [ConnectionState.disconnected, ConnectionState.reconnecting] ∧
    (handleExit sConnected (some 1) 0).state.connectionState = .reconnecting :=
  crash_state_sequence sConnected (some 1) 0 rfl rfl (by decide) rfl

/-- C4: at most one restart timer is ever pending.  A process-exit
event handled while a restart timer is already outstanding schedules
nothing and leaves the pending timer untouched; an exit with a non-zero
code, auto-restart enabled and no timer pending schedules exactly one
timer, whose delay the handler records in the timer slot. -/
theorem single_restart_timer :
    (∀ (s : ControllerState) (code : Option Int) (rand : ℚ) (d0 : ℚ),
        s.restartTimer = some d0 →
        (handleExit s code rand).scheduled = none ∧
        (handleExit s code rand).state.restartTimer = some d0) ∧
    (∀ (s : ControllerState) (code : Option Int) (rand : ℚ),
        s.restartTimer = none → s.options.autoRestart = true →
        code ≠ some 0 →
        (handleExit s code rand).scheduled = some (getRestartDelay s rand) ∧
        (handleExit s code rand).state.restartTimer =
          some (getRestartDelay s rand)) := by
  constructor
  · intro s code rand d0 h
    simp [handleExit, h]
  · intro s code rand ht har hc
    simp [handleExit, getRestartDelay, ht, har, hc]

theorem single_restart_timer_witness :
    ((handleExit sPending (some 1) 0).scheduled = none ∧
     (handleExit sPending (some 1) 0).state.restartTimer = some 700) ∧
    ((handleExit sConnected (some 1) 0).scheduled =
        some (getRestartDelay sConnected 0) ∧
     (handleExit sConnected (some 1) 0).state.restartTimer =
        some (getRestartDelay sConnected 0)) :=
  ⟨single_restart_timer.1 sPending (some 1) 0 700 rfl,
   single_restart_timer.2 sConnected (some 1) 0 rfl rfl (by decide)⟩

/-- C5: when a restart is scheduled, its delay is
`min(base * 2 ^ n, max) + rand * 1000` with the random draw in
`[0, 1)`, hence within `[min(base * 2 ^ n, max), min(base * 2 ^ n, max)
+ 1000]`; the attempt counter `n` used for the computation is its value
before the handler increments it for this failed cycle. -/
theorem restart_delay_bounds (s : ControllerState) (code : Option Int)
    (rand : ℚ) (h0 : 0 ≤ rand) (h1 : rand < 1)
    (har : s.options.autoRestart = true) (hc : code ≠ some 0)
    (ht : s.restartTimer = none) :
    (handleExit s code rand).scheduled =
        some (min (s.options.restartDelay * 2 ^ s.restartAttempt)
          s.options.maxRestartDelay + rand * 1000) ∧
    min (s.options.restartDelay * 2 ^ s.restartAttempt)
        s.options.maxRestartDelay ≤
      min (s.options.restartDelay * 2 ^ s.restartAttempt)
        s.options.maxRestartDelay + rand * 1000 ∧
    min (s.options.restartDelay * 2 ^ s.restartAttempt)
        s.options.maxRestartDelay + rand * 1000 ≤
      min (s.options.restartDelay * 2 ^ s.restartAttempt)
        s.options.maxRestartDelay + 1000 ∧
    (handleExit s code rand).state.restartAttempt = s.restartAttempt + 1 := by
  have hj0 : 0 ≤ rand * 1000 := by positivity
  have hj1 : rand * 1000 ≤ 1000 := by nlinarith
  refine ⟨?_, by linarith, by linarith, ?_⟩ <;>
    simp [handleExit, getRestartDelay, har, hc, ht]

theorem restart_delay_bounds_witness :
    (handleExit sConnected (some 1) (1 / 2)).scheduled =
        some (min (sConnected.options.restartDelay * 2 ^ sConnected.restartAttempt)
          sConnected.options.maxRestartDelay + (1 / 2) * 1000) ∧
    min (sConnected.options.restartDelay * 2 ^ sConnected.restartAttempt)
        sConnected.options.maxRestartDelay ≤
      min (sConnected.options.restartDelay * 2 ^ sConnected.restartAttempt)
        sConnected.options.maxRestartDelay + (1 / 2) * 1000 ∧
    min (sConnected.options.restartDelay * 2 ^ sConnected.restartAttempt)
        sConnected.options.maxRestartDelay + (1 / 2) * 1000 ≤
      min (sConnected.options.restartDelay * 2 ^ sConnected.restartAttempt)
        sConnected.options.maxRestartDelay + 1000 ∧
    (handleExit sConnected (some 1) (1 / 2)).state.restartAttempt =
        sConnected.restartAttempt + 1 :=
  restart_delay_bounds sConnected (some 1) (1 / 2) (by norm_num) (by norm_num)
    rfl (by decide) rfl

lemma range_map_pow_shift (a f : ℕ) :
    (List.range (f + 1)).map (fun i => 100 * 2 ^ (a + i)) =
      100 * 2 ^ a :: (List.range f).map (fun i => 100 * 2 ^ (a + 1 + i)) := by
  rw [List.range_succ_eq_map, List.map_cons, List.map_map]
  have hf : (fun i => 100 * 2 ^ (a + i)) ∘ Nat.succ =
      fun i => 100 * 2 ^ (a + 1 + i) := by
    funext i
    have h2 : a + Nat.succ i = a + 1 + i := by omega
    simp [Function.comp, h2]
  rw [hf]
  simp

lemma retryLoop_all_fail (msgs : ℕ → String) (maxRetries : ℕ) :
    ∀ (f attempt : ℕ) (lastMsg : Option String),
      retryLoop (fun i => AttemptOutcome.failure (msgs i) true)
          maxRetries (f + 1) attempt lastMsg =
        ⟨.exhausted maxRetries (some (msgs (attempt + f))),
         (List.range f).map (fun i => 100 * 2 ^ (attempt + i))⟩ := by
  intro f
  induction f with
  | zero =>
    intro attempt lastMsg
    simp [retryLoop]
  | succ f ih =>
    intro attempt lastMsg
    rw [show f + 1 + 1 = (f + 1) + 1 from rfl, retryLoop]
    simp only [ih (attempt + 1) (some (msgs attempt)), Nat.succ_ne_zero,
      if_false, if_true, Bool.true_eq]
    have hidx : attempt + 1 + f = attempt + (f + 1) := by omega
    rw [range_map_pow_shift, hidx]

/-- C6: a `sendCommandWithRetry` whose first attempt fails with the
process not running fails at once, awaiting no retry delay; when every
attempt fails while the process is still running, the loop awaits
`100 * 2 ^ attempt` between consecutive attempts, makes exactly
`maxRetries` attempts, and then fails with the aggregate error naming
the last underlying cause. -/
theorem sendCommandWithRetry_spec :
    (∀ (outcomes : ℕ → AttemptOutcome) (maxRetries : ℕ) (msg : String),
        0 < maxRetries → outcomes 0 = .failure msg false →
        sendCommandWithRetry outcomes maxRetries =
          ⟨.notRunning msg, []⟩) ∧
    (∀ (msgs : ℕ → String) (maxRetries : ℕ), 0 < maxRetries →
        sendCommandWithRetry (fun i => .failure (msgs i) true) maxRetries =
          ⟨.exhausted maxRetries (some (msgs (maxRetries - 1))),
           (List.range (maxRetries - 1)).map (fun i => 100 * 2 ^ i)⟩) := by
  constructor
  · intro outcomes maxRetries msg hpos hout
    obtain ⟨f, rfl⟩ := Nat.exists_eq_add_of_lt hpos
    show retryLoop outcomes (0 + f + 1) (0 + f + 1) 0 none = _
    rw [Nat.zero_add, retryLoop, hout]
    simp
  · intro msgs maxRetries hpos
    obtain ⟨f, rfl⟩ := Nat.exists_eq_add_of_lt hpos
    show retryLoop _ (0 + f + 1) (0 + f + 1) 0 none = _
    rw [Nat.zero_add]
    rw [retryLoop_all_fail msgs (f + 1) f 0 none]
    simp

theorem sendCommandWithRetry_spec_witness :
    sendCommandWithRetry deadOutcomes 3 =
        ⟨.notRunning notRunningGuardMsg, []⟩ ∧
    sendCommandWithRetry (fun i => .failure "write EPIPE" true) 3 =
        ⟨.exhausted 3 (some "write EPIPE"), [100, 200]⟩ := by
  constructor
  · exact sendCommandWithRetry_spec.1 deadOutcomes 3 notRunningGuardMsg
      (by norm_num) rfl
  · have h := sendCommandWithRetry_spec.2 (fun _ => "write EPIPE") 3 (by norm_num)
    simpa [List.range_succ] using h

/-- C1 (code evaluated at the failing input): after a non-zero exit
while connected (auto-restart on), the controller sits in
`reconnecting` with a 1000 ms restart timer pending and `isStarted`
false — so `stop()` hits its not-running early return and does nothing:
the timer is not cancelled, the state is not `disconnected`, and the
pending relaunch survives the explicit `stop()`. -/
theorem stop_after_crash_is_noop :
    stop (handleExit sConnected (some 1) 0).state true =
        ((handleExit sConnected (some 1) 0).state, []) ∧
    (handleExit sConnected (some 1) 0).state.restartTimer = some 1000 ∧
    (handleExit sConnected (some 1) 0).state.connectionState =
        .reconnecting ∧
    isRunning (handleExit sConnected (some 1) 0).state = false := by
  have hrest := handleExit_restart_case sConnected (some 1) 0 rfl (by decide) rfl
  have hdelay : getRestartDelay sConnected 0 = 1000 := by
    norm_num [getRestartDelay, sConnected, optsA, min_def]
  have hrun : isRunning (handleExit sConnected (some 1) 0).state = false := by
    simp [isRunning]
  exact ⟨by simp [stop, hrun], by rw [hrest.2.1, hdelay], hrest.2.2.2, hrun⟩

/-- C3 (counterexample): on a running controller with both caches
populated, `stop()` runs its full body and still leaves both snapshots
in place — `getLastMediaData()` after `stop()` is not the cleared
value. -/
theorem stop_does_not_clear_cache :
    getLastMediaData (stop sRunningCached true).1 = some mediaA ∧
    getLastVolumeData (stop sRunningCached true).1 = some volA ∧
    getLastMediaData (stop sRunningCached true).1 ≠ none := by
  refine ⟨rfl, rfl, by simp [stop, getLastMediaData, isRunning,
    sRunningCached, setState]⟩

/-- C3 (amended): the cached media and volume snapshots are unchanged
by crash handling (the exit handler and its restart scheduling) and
also unchanged by `stop()`: `stop()` does not clear them; they persist
until overwritten by a later inbound message. -/
theorem cache_persists_across_restart_and_stop (s : ControllerState)
    (code : Option Int) (rand : ℚ) (g : Bool) :
    (handleExit s code rand).state.lastMediaData = s.lastMediaData ∧
    (handleExit s code rand).state.lastVolumeData = s.lastVolumeData ∧
    getLastMediaData (stop s g).1 = getLastMediaData s ∧
    getLastVolumeData (stop s g).1 = getLastVolumeData s := by
  refine ⟨?_, ?_, ?_, ?_⟩ <;>
  · first
    | (simp only [handleExit]; split <;> simp)
    | (simp only [stop, getLastMediaData, getLastVolumeData]
       split
       · split <;> [simp; split <;> simp]
       · rfl)

end YandexMusic
